import Mathlib

/-!
Shallow embedding of the RAG chatbot's tool-calling core
(`backend/search_tools.py` and `backend/ai_generator.py`) and proofs of the
specification's claims about it.

Python `Optional` values are embedded as `Option`; Python truthiness tests on
them (`if course_name:`, `if lesson_number:`, `if results.error:`) are embedded
by explicit truthiness functions, since `None`, `""` and `0` are all falsy.
Mutation of a tool's `last_sources` slot is embedded by explicit state passing:
each `execute` takes the prior slot value and returns the new one.
-/

namespace RagChatbot

/-- A provenance source entry, embedding the Python dict
`{"text": ..., "link": ...}`; `link = none` embeds a dict without the
`"link"` key. -/
structure Source where
  text : String
  link : Option String
deriving DecidableEq, Repr

/-- Metadata of one retrieved chunk, as read by `_format_results` via
`meta.get("course_title", "unknown")` and `meta.get("lesson_number")`. -/
structure ChunkMeta where
  course_title : Option String
  lesson_number : Option Int
deriving DecidableEq, Repr

/-- Modelled from the spec: `SearchResults` is produced by the vector store
(`vector_store.py`, outside the orchestration core): documents with parallel
metadata, plus an optional error string that must be checked first. -/
structure SearchResults where
  documents : List String
  metadata : List ChunkMeta
  error : Option String
deriving DecidableEq, Repr

/-- Modelled from the spec: `SearchResults.is_empty` (from `vector_store.py`)
holds exactly when the result set has zero documents. -/
def SearchResults.is_empty (r : SearchResults) : Bool :=
  r.documents.isEmpty

/-- Python truthiness of an `Optional[str]`: `None` and `""` are falsy. -/
def truthyStr : Option String → Bool
  | none => false
  | some s => !(s == "")

/-- Python truthiness of an `Optional[int]`: `None` and `0` are falsy. -/
def truthyInt : Option Int → Bool
  | none => false
  | some n => !(n == 0)

/-- Embedding of Python's `sep.join(parts)`. -/
def joinSep (sep : String) : List String → String
  | [] => ""
  | [x] => x
  | x :: xs => x ++ sep ++ joinSep sep xs

/-- The vector store boundary consumed by the tools, as the spec's external
interface section lists it.  The store itself is outside the core, so it is an
arbitrary record of functions. -/
structure VectorStore where
  search : String → Option String → Option Int → SearchResults
  get_lesson_link : String → Int → Option String
  get_course_link : String → Option String
  resolve_course_name : String → Option String

namespace CourseSearchTool

/-- Context header built by `_format_results`:
`[<course_title>]` or `[<course_title> - Lesson <n>]`
(the lesson part is added whenever `lesson_num is not None`). -/
def header (meta : ChunkMeta) : String :=
  let course_title := meta.course_title.getD "unknown"
  match meta.lesson_number with
  | some n => "[" ++ course_title ++ " - Lesson " ++ toString n ++ "]"
  | none => "[" ++ course_title ++ "]"

/-- Source entry built by `_format_results` for one `(doc, meta)` pair:
with a lesson number it tries `get_lesson_link` only, otherwise it tries
`get_course_link`; a falsy link yields a plain-text source. -/
def sourceFor (store : VectorStore) (meta : ChunkMeta) : Source :=
  let course_title := meta.course_title.getD "unknown"
  match meta.lesson_number with
  | some n =>
    let source_text := course_title ++ " - Lesson " ++ toString n
    let lesson_link := store.get_lesson_link course_title n
    if truthyStr lesson_link then
      { text := source_text, link := lesson_link }
    else
      { text := source_text, link := none }
  | none =>
    let course_link := store.get_course_link course_title
    if truthyStr course_link then
      { text := course_title, link := course_link }
    else
      { text := course_title, link := none }

/-- Embedding of `CourseSearchTool._format_results`: the loop over
`zip(results.documents, results.metadata)` producing the formatted blocks
(joined with a blank line) and the new `last_sources` list. -/
def format_results (store : VectorStore) (results : SearchResults) :
    String × List Source :=
  let pairs := results.documents.zip results.metadata
  let formatted := pairs.map (fun p => header p.2 ++ "\n" ++ p.1)
  let sources := pairs.map (fun p => sourceFor store p.2)
  (joinSep "\n\n" formatted, sources)

/-- Embedding of `CourseSearchTool.execute`.  `last_sources` is the slot's
value before the call; the second component of the result is its value after
the call (the Python method assigns the slot only inside `_format_results`). -/
def execute (store : VectorStore) (last_sources : List Source)
    (query : String) (course_name : Option String) (lesson_number : Option Int) :
    String × List Source :=
  let results := store.search query course_name lesson_number
  if truthyStr results.error then
    (results.error.getD "", last_sources)
  else if results.is_empty then
    let filter_info :=
      (if truthyStr course_name then
        " in course \x27" ++ course_name.getD "" ++ "\x27" else "")
      ++ (if truthyInt lesson_number then
        " in lesson " ++ toString (lesson_number.getD 0) else "")
    ("No relevant content found" ++ filter_info ++ ".", last_sources)
  else
    format_results store results

end CourseSearchTool

/-- Modelled from the spec: one lesson entry of the catalog record parsed from
`lessons_json` in `vector_store.py` (the code reads `lesson.get(...)` with
defaults, so every field is optional). -/
structure LessonRecord where
  lesson_number : Option Int
  lesson_title : Option String
  lesson_link : Option String
deriving DecidableEq, Repr

/-- Modelled from the spec: the catalog metadata record for a course, as read
by `CourseOutlineTool.execute` via `metadata.get(...)`; `lessons` embeds the
already-parsed `lessons_json` list. -/
structure CatalogMeta where
  title : Option String
  course_link : Option String
  instructor : Option String
  lessons : List LessonRecord
deriving DecidableEq, Repr

/-- Modelled from the spec: `course_catalog.get(ids=[id])` returns at most one
metadata record for the resolved course id; `none` embeds the
`not results.get("metadatas")` branch. -/
structure CourseCatalog where
  get : String → Option CatalogMeta

namespace CourseOutlineTool

/-- Outline line built for one lesson: `<number>. <title>` with a markdown
link appended when `lesson_link` is truthy; a missing number renders as `?`
and a missing title as `Untitled`. -/
def lessonLine (lesson : LessonRecord) : String :=
  let lesson_num :=
    match lesson.lesson_number with
    | some n => toString n
    | none => "?"
  let lesson_title := lesson.lesson_title.getD "Untitled"
  let line := lesson_num ++ ". " ++ lesson_title
  if truthyStr lesson.lesson_link then
    line ++ " - [Link](" ++ lesson.lesson_link.getD "" ++ ")"
  else
    line

/-- Embedding of `CourseOutlineTool.execute`.  `last_sources` is the slot's
value before the call; the second component of the result is its value after
the call.  The early-return branches leave the slot untouched. -/
def execute (store : VectorStore) (catalog : CourseCatalog)
    (last_sources : List Source) (course_title : String) :
    String × List Source :=
  let resolved_title := store.resolve_course_name course_title
  if !(truthyStr resolved_title) then
    ("No course found matching \x27" ++ course_title ++ "\x27", last_sources)
  else
    match catalog.get (resolved_title.getD "") with
    | none =>
      ("Course \x27" ++ course_title ++ "\x27 found but no metadata available",
        last_sources)
    | some metadata =>
      let course_title := metadata.title.getD "Unknown Course"
      let course_link := metadata.course_link
      let instructor := metadata.instructor
      let lessons := metadata.lessons
      let outline_parts := ["**" ++ course_title ++ "**"]
      let outline_parts :=
        if truthyStr instructor then
          outline_parts ++ ["*Instructor: " ++ instructor.getD "" ++ "*"]
        else outline_parts
      let outline_parts :=
        if truthyStr course_link then
          outline_parts ++ ["*Course Link: " ++ course_link.getD "" ++ "*"]
        else outline_parts
      let source_obj : Source :=
        if truthyStr course_link then
          { text := course_title, link := course_link }
        else
          { text := course_title, link := none }
      let outline_parts :=
        if !lessons.isEmpty then
          outline_parts
            ++ ["\n**Course Outline (" ++ toString lessons.length
                  ++ " lessons):**"]
            ++ lessons.map lessonLine
        else
          outline_parts ++ ["\nNo lessons found for this course."]
      (joinSep "\n" outline_parts, [source_obj])

end CourseOutlineTool

/-- A registered tool as the `ToolManager` sees it for source tracking:
`last_sources = none` embeds a tool object without a `last_sources`
attribute (the `hasattr` check fails on it). -/
structure ManagedTool where
  last_sources : Option (List Source)
deriving DecidableEq, Repr

/-- Embedding of the `ToolManager` registry state: the registered tools in
registration order. -/
structure ToolManager where
  tools : List ManagedTool
deriving DecidableEq, Repr

namespace ToolManager

/-- The per-tool effect of `reset_sources`: clear `last_sources` when the
attribute exists, leave the tool alone otherwise. -/
def resetTool (t : ManagedTool) : ManagedTool :=
  match t.last_sources with
  | some _ => { last_sources := some [] }
  | none => t

/-- Embedding of `ToolManager.reset_sources`: clears `last_sources` on every
tool that has that attribute. -/
def reset_sources (tm : ToolManager) : ToolManager :=
  { tools := tm.tools.map resetTool }

/-- Bool predicate: the tool either lacks the `last_sources` attribute or its
`last_sources` list is empty. -/
def sourcesCleared (t : ManagedTool) : Bool :=
  match t.last_sources with
  | none => true
  | some l => l.isEmpty

end ToolManager

/-- One content block of a model response: a text block or a tool-use request
carrying an id, a tool name and an argument payload. -/
inductive ContentBlock where
  | text (t : String)
  | tool_use (id : String) (name : String) (input : String)
deriving DecidableEq, Repr

/-- A model response at the model-call boundary: a stop reason and an ordered
list of content blocks. -/
structure ModelResponse where
  stop_reason : String
  content : List ContentBlock
deriving DecidableEq, Repr

/-- One `tool_result` block appended to the conversation for a tool call. -/
structure ToolResult where
  tool_use_id : String
  content : String
deriving DecidableEq, Repr

/-- Embedding of Python `response.content[0].text`: `none` embeds the
`AttributeError` raised when the first block is not a text block (or the
`IndexError` on an empty list). -/
def content0text (r : ModelResponse) : Option String :=
  match r.content with
  | ContentBlock.text t :: _ => some t
  | _ => none

namespace AIGenerator

/-- `any(block.type == "tool_use" for block in response.content)` from
`_should_continue_tool_calling`. -/
def hasToolUse (r : ModelResponse) : Bool :=
  r.content.any fun b =>
    match b with
    | ContentBlock.tool_use _ _ _ => true
    | _ => false

/-- Embedding of `AIGenerator._execute_tools_in_response`.  `execTool` embeds
`tool_manager.execute_tool`: `Except.ok` is a returned result string,
`Except.error` is a raised exception's message.  Returns the tool results in
block order together with the success flag (`not critical_failure`); a failing
call contributes a `Tool execution failed: <message>` result and flips the
flag, and the remaining blocks are still processed. -/
def execute_tools_in_response (execTool : String → String → Except String String) :
    List ContentBlock → List ToolResult × Bool
  | [] => ([], true)
  | ContentBlock.text _ :: rest => execute_tools_in_response execTool rest
  | ContentBlock.tool_use id name input :: rest =>
    let restOut := execute_tools_in_response execTool rest
    match execTool name input with
    | Except.ok result =>
      ({ tool_use_id := id, content := result } :: restOut.1, restOut.2)
    | Except.error e =>
      ({ tool_use_id := id, content := "Tool execution failed: " ++ e }
          :: restOut.1, false)

/-- Embedding of `AIGenerator._should_continue_tool_calling`. -/
def should_continue_tool_calling (response : ModelResponse)
    (current_round max_rounds : Nat) : Bool :=
  if current_round ≥ max_rounds then false
  else hasToolUse response

/-- Observable trace of one `generate_response` run: the final returned text
(`none` embeds a crash on `content[0].text`), the tool-availability flag of
each model call in order (the first call included), and the tool-result batch
of each executed round in order. -/
structure OrchTrace where
  finalText : Option String
  calls : List Bool
  toolBatches : List (List ToolResult)
deriving DecidableEq, Repr

/-- Embedding of the `while current_round < max_rounds` loop of
`AIGenerator._execute_tool_calling_rounds`.  The model-call boundary is
embedded as `client : Nat → ModelResponse`, mapping the index of a model call
(0 = the initial call of `generate_response`) to its response; `calls.length`
is therefore the index of the next call.  In-loop calls
(`_get_next_response`) carry tools, the failure path and the after-loop path
(`_handle_tool_execution_failure` / `_get_final_response`) call without
tools.  `fuel` only drives structural recursion; it is an upper bound on the
remaining loop iterations and every use below supplies `max_rounds`, which
suffices because `current_round` grows by one per iteration. -/
def rounds_loop (client : Nat → ModelResponse)
    (execTool : String → String → Except String String) (max_rounds : Nat) :
    Nat → ModelResponse → Nat → List Bool → List (List ToolResult) → OrchTrace
  | fuel, current_response, current_round, calls, batches =>
    if current_round < max_rounds then
      match fuel with
      | 0 =>
        -- unreachable when fuel ≥ max_rounds - current_round
        { finalText := none, calls := calls, toolBatches := batches }
      | fuel + 1 =>
        let execOut := execute_tools_in_response execTool current_response.content
        if !execOut.2 then
          -- _handle_tool_execution_failure: one model call without tools
          let final_response := client calls.length
          { finalText := content0text final_response,
            calls := calls ++ [false],
            toolBatches := batches ++ [execOut.1] }
        else
          let current_round := current_round + 1
          -- _get_next_response: WITH tools still available
          let next_response := client calls.length
          let calls := calls ++ [true]
          if !(should_continue_tool_calling next_response current_round max_rounds) then
            { finalText := content0text next_response,
              calls := calls,
              toolBatches := batches ++ [execOut.1] }
          else
            rounds_loop client execTool max_rounds fuel next_response
              current_round calls (batches ++ [execOut.1])
    else
      -- loop exit: _get_final_response, one model call without tools
      let final_response := client calls.length
      { finalText := content0text final_response,
        calls := calls ++ [false],
        toolBatches := batches }

/-- Embedding of `AIGenerator.generate_response`: one initial model call
(with tools when supplied); if its stop reason is `tool_use` and a tool
manager is present, enter `_execute_tool_calling_rounds` with
`max_rounds`, else return the first response's text directly. -/
def generate_response (client : Nat → ModelResponse)
    (execTool : String → String → Except String String)
    (toolsProvided toolManagerProvided : Bool) (max_rounds : Nat) : OrchTrace :=
  let response := client 0
  if response.stop_reason == "tool_use" && toolManagerProvided then
    rounds_loop client execTool max_rounds max_rounds response 0
      [toolsProvided] []
  else
    { finalText := content0text response,
      calls := [toolsProvided],
      toolBatches := [] }

end AIGenerator

/-- The vector store boundary with fallible link lookups: `Except.error`
embeds an exception raised by `get_lesson_link` / `get_course_link`
(nothing in `_format_results` catches one). -/
structure VectorStoreE where
  search : String → Option String → Option Int → SearchResults
  get_lesson_link : String → Int → Except String (Option String)
  get_course_link : String → Except String (Option String)

namespace CourseSearchTool

/-- `sourceFor` against the fallible store: the lookup's exception, if any,
escapes. -/
def sourceForE (store : VectorStoreE) (meta : ChunkMeta) :
    Except String Source :=
  let course_title := meta.course_title.getD "unknown"
  match meta.lesson_number with
  | some n =>
    let source_text := course_title ++ " - Lesson " ++ toString n
    match store.get_lesson_link course_title n with
    | Except.error e => Except.error e
    | Except.ok lesson_link =>
      if truthyStr lesson_link then
        Except.ok { text := source_text, link := lesson_link }
      else
        Except.ok { text := source_text, link := none }
  | none =>
    match store.get_course_link course_title with
    | Except.error e => Except.error e
    | Except.ok course_link =>
      if truthyStr course_link then
        Except.ok { text := course_title, link := course_link }
      else
        Except.ok { text := course_title, link := none }

/-- The `_format_results` loop against the fallible store, processing the
zipped pairs in order: the first lookup exception aborts the loop and
escapes; on success it yields the formatted blocks and the sources list. -/
def formatPairsE (store : VectorStoreE) :
    List (String × ChunkMeta) → Except String (List String × List Source)
  | [] => Except.ok ([], [])
  | p :: rest =>
    match sourceForE store p.2 with
    | Except.error e => Except.error e
    | Except.ok src =>
      match formatPairsE store rest with
      | Except.error e => Except.error e
      | Except.ok out => Except.ok ((header p.2 ++ "\n" ++ p.1) :: out.1,
          src :: out.2)

/-- `CourseSearchTool.execute` against the fallible store.  `Except.error`
embeds the call raising; the slot assignment `self.last_sources = sources`
sits after the whole loop, so it is reached only in the `Except.ok` cases. -/
def executeE (store : VectorStoreE) (last_sources : List Source)
    (query : String) (course_name : Option String) (lesson_number : Option Int) :
    Except String (String × List Source) :=
  let results := store.search query course_name lesson_number
  if truthyStr results.error then
    Except.ok (results.error.getD "", last_sources)
  else if results.is_empty then
    let filter_info :=
      (if truthyStr course_name then
        " in course \x27" ++ course_name.getD "" ++ "\x27" else "")
      ++ (if truthyInt lesson_number then
        " in lesson " ++ toString (lesson_number.getD 0) else "")
    Except.ok ("No relevant content found" ++ filter_info ++ ".", last_sources)
  else
    match formatPairsE store (results.documents.zip results.metadata) with
    | Except.error e => Except.error e
    | Except.ok out => Except.ok (joinSep "\n\n" out.1, out.2)

/-- The value of the `last_sources` slot after a fallible `execute` call:
the returned sources on normal return, the prior value when the call raised
(the slot assignment was never reached). -/
def lastSourcesAfterE (prior : List Source)
    (r : Except String (String × List Source)) : List Source :=
  match r with
  | Except.ok out => out.2
  | Except.error _ => prior

end CourseSearchTool

namespace AIGenerator

/-- Bool test for a `tool_use` content block. -/
def isToolUseBlock : ContentBlock → Bool
  | ContentBlock.tool_use _ _ _ => true
  | _ => false

/-- Number of `tool_use` blocks in a response's content. -/
def countToolUses (blocks : List ContentBlock) : Nat :=
  blocks.countP isToolUseBlock

/-- The `tool_result` block produced for one `tool_use` block: the tool's
return value on success, the `Tool execution failed: <message>` text when the
call raised. -/
def toolResultFor (execTool : String → String → Except String String)
    (id name input : String) : ToolResult :=
  { tool_use_id := id,
    content :=
      match execTool name input with
      | Except.ok result => result
      | Except.error e => "Tool execution failed: " ++ e }

end AIGenerator

/-! Concrete fixtures used by witnesses, evaluations and counterexamples. -/

/-- A non-empty prior `last_sources` value, for observing staleness. -/
def exampleSourceOld : Source := { text := "old", link := none }

/-- A store whose searches come back empty and whose every lookup misses. -/
def emptyResultsStore : VectorStore :=
  { search := fun _ _ _ => { documents := [], metadata := [], error := none },
    get_lesson_link := fun _ _ => none,
    get_course_link := fun _ => none,
    resolve_course_name := fun _ => none }

/-- A store returning one lesson-tagged document, with no lesson link but an
available course link. -/
def lessonNoLinkStore : VectorStore :=
  { search := fun _ _ _ =>
      { documents := ["chunk one"],
        metadata := [{ course_title := some "Course A", lesson_number := some 1 }],
        error := none },
    get_lesson_link := fun _ _ => none,
    get_course_link := fun _ => some "http://example.com/course-a",
    resolve_course_name := fun _ => none }

/-- A store returning one lesson-tagged document with a lesson link. -/
def lessonLinkStore : VectorStore :=
  { search := fun _ _ _ =>
      { documents := ["chunk one"],
        metadata := [{ course_title := some "Course A", lesson_number := some 2 }],
        error := none },
    get_lesson_link := fun _ n => some ("http://example.com/lesson-" ++ toString n),
    get_course_link := fun _ => none,
    resolve_course_name := fun _ => none }

/-- A store whose searches report a backend error. -/
def errorStore : VectorStore :=
  { search := fun _ _ _ =>
      { documents := [], metadata := [],
        error := some "Search failed: index unavailable" },
    get_lesson_link := fun _ _ => none,
    get_course_link := fun _ => none,
    resolve_course_name := fun _ => none }

/-- A store returning two documents, one lesson-tagged and one course-level. -/
def twoDocStore : VectorStore :=
  { search := fun _ _ _ =>
      { documents := ["first chunk", "second chunk"],
        metadata := [{ course_title := some "Course A", lesson_number := some 1 },
                     { course_title := some "Course A", lesson_number := none }],
        error := none },
    get_lesson_link := fun _ _ => none,
    get_course_link := fun _ => some "http://example.com/course-a",
    resolve_course_name := fun _ => none }

/-- A catalog with no records. -/
def emptyCatalog : CourseCatalog := { get := fun _ => none }

/-- A fallible store whose lesson-link lookup raises for every lesson other
than lesson 1. -/
def failingLinkStoreE : VectorStoreE :=
  { search := fun _ _ _ =>
      { documents := ["first chunk", "second chunk"],
        metadata := [{ course_title := some "Course A", lesson_number := some 1 },
                     { course_title := some "Course A", lesson_number := some 2 }],
        error := none },
    get_lesson_link := fun _ n =>
      if n == 1 then Except.ok (some "http://example.com/lesson-1")
      else Except.error "connection lost",
    get_course_link := fun _ => Except.ok none }

/-- A tool executor that always succeeds. -/
def okTool : String → String → Except String String :=
  fun _ _ => Except.ok "Tool result"

/-- A tool executor for which exactly the tool named `broken_tool` raises. -/
def failingTool : String → String → Except String String :=
  fun name _ =>
    if name == "broken_tool" then Except.error "boom"
    else Except.ok "ok result"

/-- A model that requests a tool in every response (with a leading text
block, so the returned text is observable). -/
def alwaysToolClient : Nat → ModelResponse := fun _ =>
  { stop_reason := "tool_use",
    content := [ContentBlock.text "working on it",
                ContentBlock.tool_use "t1" "search_course_content" "q"] }

/-- A model whose first response requests two tools (one of them broken) and
whose later responses are plain text. -/
def roundOneFailureClient : Nat → ModelResponse := fun n =>
  if n == 0 then
    { stop_reason := "tool_use",
      content := [ContentBlock.tool_use "t1" "broken_tool" "a",
                  ContentBlock.tool_use "t2" "search_course_content" "b"] }
  else
    { stop_reason := "end_turn",
      content := [ContentBlock.text "best effort close"] }

/-- A model whose first round's tool succeeds, whose second round requests the
broken tool, and whose later responses are plain text. -/
def roundTwoFailureClient : Nat → ModelResponse := fun n =>
  if n == 0 then
    { stop_reason := "tool_use",
      content := [ContentBlock.tool_use "t1" "search_course_content" "a"] }
  else if n == 1 then
    { stop_reason := "tool_use",
      content := [ContentBlock.tool_use "t2" "broken_tool" "b"] }
  else
    { stop_reason := "end_turn",
      content := [ContentBlock.text "round two close"] }

/-- A model that requests one tool in round 1 and stops in round 2. -/
def earlyTermClient : Nat → ModelResponse := fun n =>
  if n == 0 then
    { stop_reason := "tool_use",
      content := [ContentBlock.tool_use "t1" "search_course_content" "a"] }
  else
    { stop_reason := "end_turn",
      content := [ContentBlock.text "found the answer"] }

/-! Helper lemmas. -/

/-- String append is list append on the underlying character data. -/
theorem string_data_append (a b : String) : (a ++ b).data = a.data ++ b.data := rfl

/-- Every element of a joined list is an infix of the joined string. -/
theorem data_infix_joinSep (sep x : String) (l : List String) (h : x ∈ l) :
    x.data <:+: (joinSep sep l).data := by
  induction l with
  | nil => cases h
  | cons y ys ih =>
    cases ys with
    | nil =>
      rcases List.mem_singleton.mp h with rfl
      exact List.infix_rfl
    | cons z zs =>
      rcases List.mem_cons.mp h with rfl | hmem
      · show x.data <:+: (x ++ sep ++ joinSep sep (z :: zs)).data
        rw [string_data_append, string_data_append, List.append_assoc]
        exact (List.prefix_append _ _).isInfix
      · have h1 := ih hmem
        show x.data <:+: (y ++ sep ++ joinSep sep (z :: zs)).data
        rw [string_data_append]
        exact h1.trans (List.suffix_append _ _).isInfix

namespace AIGenerator

/-- `_execute_tools_in_response` yields exactly one result per `tool_use`
block, in block order, each built by `toolResultFor`; text blocks contribute
nothing. -/
theorem execute_tools_in_response_results
    (execTool : String → String → Except String String)
    (blocks : List ContentBlock) :
    (execute_tools_in_response execTool blocks).1 =
      blocks.filterMap (fun b =>
        match b with
        | ContentBlock.tool_use id name input =>
          some (toolResultFor execTool id name input)
        | ContentBlock.text _ => none) := by
  induction blocks with
  | nil => rfl
  | cons b rest ih =>
    cases b with
    | text t => simpa [execute_tools_in_response] using ih
    | tool_use id name input =>
      simp only [execute_tools_in_response, List.filterMap_cons]
      cases hx : execTool name input <;> simp [toolResultFor, hx, ih]

/-- The number of tool results equals the number of `tool_use` blocks. -/
theorem execute_tools_in_response_length
    (execTool : String → String → Except String String)
    (blocks : List ContentBlock) :
    (execute_tools_in_response execTool blocks).1.length = countToolUses blocks := by
  rw [execute_tools_in_response_results, List.length_filterMap_eq_countP]
  unfold countToolUses
  congr 1
  funext b
  cases b <;> rfl

/-- One unfolding of the round loop when fuel remains. -/
theorem rounds_loop_succ (client : Nat → ModelResponse)
    (execTool : String → String → Except String String)
    (max_rounds fuel : Nat) (resp : ModelResponse) (cr : Nat)
    (calls : List Bool) (batches : List (List ToolResult)) :
    rounds_loop client execTool max_rounds (fuel + 1) resp cr calls batches =
      if cr < max_rounds then
        (let execOut := execute_tools_in_response execTool resp.content
         if !execOut.2 then
           { finalText := content0text (client calls.length),
             calls := calls ++ [false],
             toolBatches := batches ++ [execOut.1] }
         else
           if !(should_continue_tool_calling (client calls.length) (cr + 1)
                  max_rounds) then
             { finalText := content0text (client calls.length),
               calls := calls ++ [true],
               toolBatches := batches ++ [execOut.1] }
           else
             rounds_loop client execTool max_rounds fuel (client calls.length)
               (cr + 1) (calls ++ [true]) (batches ++ [execOut.1]))
      else
        { finalText := content0text (client calls.length),
          calls := calls ++ [false],
          toolBatches := batches } := rfl

end AIGenerator

namespace ToolManager

/-- After `resetTool`, a tool carrying the attribute holds the empty list. -/
theorem resetTool_cleared (t : ManagedTool) :
    sourcesCleared (resetTool t) = true := by
  rcases t with ⟨ls⟩
  cases ls <;> rfl

/-- `resetTool` is idempotent on every tool. -/
theorem resetTool_idem (t : ManagedTool) : resetTool (resetTool t) = resetTool t := by
  rcases t with ⟨ls⟩
  cases ls <;> rfl

end ToolManager

namespace CourseSearchTool

/-- A lookup exception at any position of the formatting loop, with all
earlier lookups succeeding, escapes from `formatPairsE` unchanged. -/
theorem formatPairsE_error_propagates (store : VectorStoreE) :
    ∀ (pre : List (String × ChunkMeta)) (p : String × ChunkMeta)
      (post : List (String × ChunkMeta)) (e : String),
      (∀ r ∈ pre, ∃ s, sourceForE store r.2 = Except.ok s) →
      sourceForE store p.2 = Except.error e →
      formatPairsE store (pre ++ p :: post) = Except.error e
  | [], p, post, e, _, hfail => by
    simp [formatPairsE, hfail]
  | q :: pre, p, post, e, hpre, hfail => by
    obtain ⟨s, hs⟩ := hpre q (List.mem_cons_self q pre)
    have ih := formatPairsE_error_propagates store pre p post e
      (fun r hr => hpre r (List.mem_cons_of_mem q hr)) hfail
    simp [formatPairsE, hs, ih]

end CourseSearchTool

/-! Claims. -/

/-- C1: the claim states that when every model response requests a tool, the
orchestrator performs `max_rounds = 2` tool-execution rounds and then one
additional model call without tool access, for `max_rounds + 2 = 4` model
calls in total.  Evaluating `generate_response` at such a model shows the
code instead makes only 3 model calls, every one of them with tool access:
after round 2 the loop returns the text of the in-loop (with-tools) call, and
the final no-tools call of `_get_final_response` is never reached. -/
theorem c1_always_tool_use_three_calls_with_tools :
    (AIGenerator.generate_response alwaysToolClient okTool true true 2).calls
        = [true, true, true] ∧
    (AIGenerator.generate_response alwaysToolClient okTool true true 2).toolBatches.length
        = 2 ∧
    (AIGenerator.generate_response alwaysToolClient okTool true true 2).calls.length
        ≠ 2 + 2 ∧
    (AIGenerator.generate_response alwaysToolClient okTool true true 2).calls.getLast?
        ≠ some false := by
  decide

/-- C2 counterexample: with a non-empty prior `last_sources` and a supplied
`lesson_number = 0`, an empty search leaves `last_sources` non-empty (the
claim says it becomes empty) and omits the lesson filter clause (the claim
says every supplied filter is named). -/
theorem c2_empty_results_cex :
    (CourseSearchTool.execute emptyResultsStore [exampleSourceOld] "q"
        (some "MCP") (some 0)).1
        = "No relevant content found in course \x27MCP\x27." ∧
    (CourseSearchTool.execute emptyResultsStore [exampleSourceOld] "q"
        (some "MCP") (some 0)).2
        = [exampleSourceOld] ∧
    [exampleSourceOld] ≠ ([] : List Source) ∧
    (CourseSearchTool.execute emptyResultsStore [exampleSourceOld] "q"
        (some "MCP") (some 0)).1
        ≠ "No relevant content found in course \x27MCP\x27 in lesson 0." := by
  decide

/-- C2 (amended): for every search with no error and zero documents,
`execute` returns exactly `No relevant content found` plus the course clause
when `course_name` is truthy and the lesson clause when `lesson_number` is
truthy, and a period; `last_sources` is left unchanged rather than cleared. -/
theorem c2_empty_results_message_and_state (store : VectorStore)
    (state : List Source) (q : String) (cn : Option String) (ln : Option Int)
    (herr : truthyStr (store.search q cn ln).error = false)
    (hemp : (store.search q cn ln).is_empty = true) :
    CourseSearchTool.execute store state q cn ln =
      ("No relevant content found"
        ++ (if truthyStr cn then " in course \x27" ++ cn.getD "" ++ "\x27" else "")
        ++ (if truthyInt ln then " in lesson " ++ toString (ln.getD 0) else "")
        ++ ".", state) := by
  unfold CourseSearchTool.execute
  simp [herr, hemp, String.append_assoc]

/-- C2 witness: the amended theorem applied to a concrete empty search. -/
theorem c2_empty_results_message_and_state_witness :
    CourseSearchTool.execute emptyResultsStore [] "q" (some "MCP") (some 5)
      = ("No relevant content found in course \x27MCP\x27 in lesson 5.", []) := by
  have h := c2_empty_results_message_and_state emptyResultsStore [] "q"
    (some "MCP") (some 5) (by decide) (by decide)
  exact h.trans (by decide)

/-- C3 counterexample: the metadata carries lesson 1, the lesson link is
absent and a course-level link is available, yet the recorded source has no
link — there is no fallback to the course-level link. -/
theorem c3_no_course_link_fallback_cex :
    truthyStr (lessonNoLinkStore.get_course_link "Course A") = true ∧
    (CourseSearchTool.execute lessonNoLinkStore [] "q" none none).2
        = [{ text := "Course A - Lesson 1", link := none }] := by
  decide

/-- C3 (amended): for every pair whose metadata carries a lesson number, the
recorded source uses the lesson-level link when it is truthy and no link
otherwise; the course-level link is never consulted for such pairs. -/
theorem c3_lesson_link_no_fallback (store : VectorStore)
    (results : SearchResults) (i : Nat) (doc : String) (meta : ChunkMeta)
    (n : Int)
    (hp : (results.documents.zip results.metadata).get? i = some (doc, meta))
    (hn : meta.lesson_number = some n) :
    (CourseSearchTool.format_results store results).2.get? i =
      some (if truthyStr
              (store.get_lesson_link (meta.course_title.getD "unknown") n) then
              { text := meta.course_title.getD "unknown" ++ " - Lesson "
                  ++ toString n,
                link := store.get_lesson_link (meta.course_title.getD "unknown") n }
            else
              { text := meta.course_title.getD "unknown" ++ " - Lesson "
                  ++ toString n,
                link := none }) := by
  simp only [List.get?_eq_getElem?] at hp ⊢
  simp only [CourseSearchTool.format_results, List.getElem?_map, hp,
    Option.map_some']
  unfold CourseSearchTool.sourceFor
  simp only [hn]

/-- C3 witness: with a lesson link available, the recorded source carries it. -/
theorem c3_lesson_link_no_fallback_witness :
    (CourseSearchTool.format_results lessonLinkStore
        (lessonLinkStore.search "q" none none)).2.get? 0
      = some { text := "Course A - Lesson 2",
               link := some "http://example.com/lesson-2" } := by
  have h := c3_lesson_link_no_fallback lessonLinkStore
    (lessonLinkStore.search "q" none none) 0 "chunk one"
    { course_title := some "Course A", lesson_number := some 2 } 2
    (by decide) rfl
  rw [h]
  decide

/-- C4: when the result set's error field is set (truthy, as the code tests
it), `execute` returns the error string itself and leaves `last_sources`
untouched. -/
theorem c4_error_propagated_verbatim (store : VectorStore)
    (state : List Source) (q : String) (cn : Option String) (ln : Option Int)
    (e : String)
    (herr : (store.search q cn ln).error = some e) (hne : e ≠ "") :
    CourseSearchTool.execute store state q cn ln = (e, state) := by
  simp [CourseSearchTool.execute, herr, truthyStr, hne]

/-- C4 witness: the theorem applied to a concrete erroring search. -/
theorem c4_error_propagated_verbatim_witness :
    CourseSearchTool.execute errorStore [exampleSourceOld] "q" none none
      = ("Search failed: index unavailable", [exampleSourceOld]) :=
  c4_error_propagated_verbatim errorStore [exampleSourceOld] "q" none none
    "Search failed: index unavailable" rfl (by decide)

/-- C5: for a result set with no error and at least one document (with the
spec's parallel-lengths invariant), `execute` records exactly one source per
zipped pair in input order (so `last_sources` length equals the document
count) and its output contains, for each index, the document's verbatim text
immediately preceded by its context header. -/
theorem c5_format_results_contents (store : VectorStore) (state : List Source)
    (q : String) (cn : Option String) (ln : Option Int)
    (results : SearchResults)
    (hres : store.search q cn ln = results)
    (herr : truthyStr results.error = false)
    (hne : results.documents ≠ [])
    (hlen : results.documents.length = results.metadata.length) :
    (CourseSearchTool.execute store state q cn ln).2
        = (results.documents.zip results.metadata).map
            (fun p => CourseSearchTool.sourceFor store p.2) ∧
    (CourseSearchTool.execute store state q cn ln).2.length
        = results.documents.length ∧
    ∀ i (hi : i < results.documents.length),
      (CourseSearchTool.header (results.metadata.get ⟨i, hlen ▸ hi⟩) ++ "\n"
          ++ results.documents.get ⟨i, hi⟩).data
        <:+: (CourseSearchTool.execute store state q cn ln).1.data := by
  have hemp : results.is_empty = false := by
    unfold SearchResults.is_empty
    simpa using hne
  have hexec : CourseSearchTool.execute store state q cn ln
      = CourseSearchTool.format_results store results := by
    simp [CourseSearchTool.execute, hres, herr, hemp]
  rw [hexec]
  refine ⟨rfl, ?_, ?_⟩
  · simp [CourseSearchTool.format_results, hlen]
  · intro i hi
    apply data_infix_joinSep
    have hz : i < (results.documents.zip results.metadata).length := by
      simp [List.length_zip]
      omega
    have hget : (results.documents.zip results.metadata).get ⟨i, hz⟩
        = (results.documents.get ⟨i, hi⟩,
           results.metadata.get ⟨i, hlen ▸ hi⟩) := by
      simp [List.get_eq_getElem, List.getElem_zip]
    refine List.mem_map.mpr
      ⟨(results.documents.get ⟨i, hi⟩,
        results.metadata.get ⟨i, hlen ▸ hi⟩), ?_, rfl⟩
    rw [← hget]
    exact List.get_mem _ _ _

/-- C5 witness: the theorem applied to a concrete two-document result set. -/
theorem c5_format_results_contents_witness :
    (CourseSearchTool.execute twoDocStore [] "q" none none).2.length
        = (twoDocStore.search "q" none none).documents.length ∧
    (CourseSearchTool.header
        ((twoDocStore.search "q" none none).metadata.get ⟨0, by decide⟩) ++ "\n"
        ++ (twoDocStore.search "q" none none).documents.get ⟨0, by decide⟩).data
      <:+: (CourseSearchTool.execute twoDocStore [] "q" none none).1.data := by
  have h := c5_format_results_contents twoDocStore [] "q" none none
    (twoDocStore.search "q" none none) rfl (by decide) (by decide) (by decide)
  exact ⟨h.2.1, h.2.2 0 (by decide)⟩

/-- C6: (1) each `tool_use` block yields one result in block order, a raising
call's result content being `Tool execution failed: <message>` while its
siblings still execute; (2) a failure in round 1 yields exactly 2 model calls,
the second without tool access, returning its text; (3) a failure in round 2
yields exactly 3 model calls, the third without tool access, returning its
text. -/
theorem c6_tool_failure_handling (client : Nat → ModelResponse)
    (execTool : String → String → Except String String) :
    (∀ blocks : List ContentBlock,
      (AIGenerator.execute_tools_in_response execTool blocks).1 =
        blocks.filterMap (fun b =>
          match b with
          | ContentBlock.tool_use id name input =>
            some (AIGenerator.toolResultFor execTool id name input)
          | ContentBlock.text _ => none)) ∧
    ((client 0).stop_reason = "tool_use" →
      (AIGenerator.execute_tools_in_response execTool (client 0).content).2 = false →
      (AIGenerator.generate_response client execTool true true 2).calls
          = [true, false] ∧
      (AIGenerator.generate_response client execTool true true 2).finalText
          = content0text (client 1) ∧
      (AIGenerator.generate_response client execTool true true 2).toolBatches
          = [(AIGenerator.execute_tools_in_response execTool (client 0).content).1]) ∧
    ((client 0).stop_reason = "tool_use" →
      (AIGenerator.execute_tools_in_response execTool (client 0).content).2 = true →
      AIGenerator.hasToolUse (client 1) = true →
      (AIGenerator.execute_tools_in_response execTool (client 1).content).2 = false →
      (AIGenerator.generate_response client execTool true true 2).calls
          = [true, true, false] ∧
      (AIGenerator.generate_response client execTool true true 2).finalText
          = content0text (client 2) ∧
      (AIGenerator.generate_response client execTool true true 2).toolBatches
          = [(AIGenerator.execute_tools_in_response execTool (client 0).content).1,
             (AIGenerator.execute_tools_in_response execTool (client 1).content).1]) := by
  refine ⟨AIGenerator.execute_tools_in_response_results execTool, ?_, ?_⟩
  · intro h0 hfail
    have hg : AIGenerator.generate_response client execTool true true 2 =
        AIGenerator.rounds_loop client execTool 2 2 (client 0) 0 [true] [] := by
      simp [AIGenerator.generate_response, h0]
    rw [hg, AIGenerator.rounds_loop_succ, if_pos (by omega)]
    simp [hfail]
  · intro h0 hok1 htool1 hfail2
    have hg : AIGenerator.generate_response client execTool true true 2 =
        AIGenerator.rounds_loop client execTool 2 2 (client 0) 0 [true] [] := by
      simp [AIGenerator.generate_response, h0]
    have hsc : AIGenerator.should_continue_tool_calling (client 1) 1 2 = true := by
      unfold AIGenerator.should_continue_tool_calling
      rw [if_neg (by omega), htool1]
    rw [hg, AIGenerator.rounds_loop_succ, if_pos (by omega : (0 : Nat) < 2)]
    simp only [hok1, hsc, Bool.not_true, Bool.not_false, List.length_cons,
      List.length_nil, Nat.zero_add, List.nil_append, List.cons_append,
      Bool.false_eq_true, if_false, ite_false]
    rw [AIGenerator.rounds_loop_succ, if_pos (by omega : (1 : Nat) < 2)]
    simp [hfail2]

/-- C6 witness: the theorem applied to concrete round-1 and round-2 failure
scenarios with a broken tool. -/
theorem c6_tool_failure_handling_witness :
    ((AIGenerator.generate_response roundOneFailureClient failingTool true true 2).calls
        = [true, false] ∧
      (AIGenerator.generate_response roundOneFailureClient failingTool true true 2).finalText
        = content0text (roundOneFailureClient 1) ∧
      (AIGenerator.generate_response roundOneFailureClient failingTool true true 2).toolBatches
        = [(AIGenerator.execute_tools_in_response failingTool
              (roundOneFailureClient 0).content).1]) ∧
    ((AIGenerator.generate_response roundTwoFailureClient failingTool true true 2).calls
        = [true, true, false] ∧
      (AIGenerator.generate_response roundTwoFailureClient failingTool true true 2).finalText
        = content0text (roundTwoFailureClient 2) ∧
      (AIGenerator.generate_response roundTwoFailureClient failingTool true true 2).toolBatches
        = [(AIGenerator.execute_tools_in_response failingTool
              (roundTwoFailureClient 0).content).1,
           (AIGenerator.execute_tools_in_response failingTool
              (roundTwoFailureClient 1).content).1]) := by
  refine ⟨(c6_tool_failure_handling roundOneFailureClient failingTool).2.1
      (by decide) (by decide),
    (c6_tool_failure_handling roundTwoFailureClient failingTool).2.2
      (by decide) (by decide) (by decide) (by decide)⟩

/-- C7: when the first response requests tool use and the second carries no
tool-use block, the orchestrator makes exactly 2 model calls, executes
exactly the first response's tool calls (one result per `tool_use` block),
and returns the second response's text unmodified. -/
theorem c7_early_termination (client : Nat → ModelResponse)
    (execTool : String → String → Except String String)
    (h0 : (client 0).stop_reason = "tool_use")
    (h1 : AIGenerator.hasToolUse (client 1) = false) :
    (AIGenerator.generate_response client execTool true true 2).calls.length = 2 ∧
    (AIGenerator.generate_response client execTool true true 2).toolBatches
      = [(AIGenerator.execute_tools_in_response execTool (client 0).content).1] ∧
    (AIGenerator.execute_tools_in_response execTool (client 0).content).1.length
      = AIGenerator.countToolUses (client 0).content ∧
    (AIGenerator.generate_response client execTool true true 2).finalText
      = content0text (client 1) := by
  have hg : AIGenerator.generate_response client execTool true true 2 =
      AIGenerator.rounds_loop client execTool 2 2 (client 0) 0 [true] [] := by
    simp [AIGenerator.generate_response, h0]
  have hlen := AIGenerator.execute_tools_in_response_length execTool (client 0).content
  rw [hg, AIGenerator.rounds_loop_succ, if_pos (by omega)]
  rcases hE : (AIGenerator.execute_tools_in_response execTool (client 0).content).2
  · simp [hE, hlen]
  · have hsc : AIGenerator.should_continue_tool_calling (client 1) 1 2 = false := by
      unfold AIGenerator.should_continue_tool_calling
      rw [if_neg (by omega), h1]
    simp [hE, hsc, hlen]

/-- C7 witness: the theorem applied to a concrete early-terminating model. -/
theorem c7_early_termination_witness :
    (AIGenerator.generate_response earlyTermClient okTool true true 2).calls.length
        = 2 ∧
    (AIGenerator.generate_response earlyTermClient okTool true true 2).finalText
        = some "found the answer" := by
  have h := c7_early_termination earlyTermClient okTool (by decide) (by decide)
  exact ⟨h.1, h.2.2.2.trans (by decide)⟩

/-- C8: when fuzzy resolution yields no (truthy) canonical identifier, the
outline tool returns exactly the no-match message and leaves `last_sources`
unchanged. -/
theorem c8_outline_resolution_failure (store : VectorStore)
    (catalog : CourseCatalog) (state : List Source) (title : String)
    (h : truthyStr (store.resolve_course_name title) = false) :
    CourseOutlineTool.execute store catalog state title
      = ("No course found matching \x27" ++ title ++ "\x27", state) := by
  unfold CourseOutlineTool.execute
  simp [h]

/-- C8 witness: the theorem applied to a store that resolves nothing, with a
non-empty prior `last_sources`. -/
theorem c8_outline_resolution_failure_witness :
    CourseOutlineTool.execute emptyResultsStore emptyCatalog [exampleSourceOld]
        "Missing Course"
      = ("No course found matching \x27Missing Course\x27", [exampleSourceOld]) := by
  have h := c8_outline_resolution_failure emptyResultsStore emptyCatalog
    [exampleSourceOld] "Missing Course" (by decide)
  exact h.trans (by decide)

/-- C9: `reset_sources` leaves every registered tool carrying the
`last_sources` attribute empty, still empty after a second call, and the
second call changes nothing (idempotence). -/
theorem c9_reset_sources_idempotent (tm : ToolManager) :
    (tm.reset_sources).tools.all ToolManager.sourcesCleared = true ∧
    (tm.reset_sources.reset_sources).tools.all ToolManager.sourcesCleared = true ∧
    tm.reset_sources.reset_sources = tm.reset_sources := by
  have hidem : tm.reset_sources.reset_sources = tm.reset_sources := by
    simp only [ToolManager.reset_sources, List.map_map]
    congr 1
    exact List.map_congr_left fun t _ => ToolManager.resetTool_idem t
  refine ⟨?_, ?_, hidem⟩
  · simp only [ToolManager.reset_sources, List.all_map]
    exact List.all_eq_true.mpr fun t _ => ToolManager.resetTool_cleared t
  · rw [hidem]
    simp only [ToolManager.reset_sources, List.all_map]
    exact List.all_eq_true.mpr fun t _ => ToolManager.resetTool_cleared t

/-- C10: if a link lookup raises at any position of the formatting loop (all
earlier lookups succeeding), the exception propagates out of `execute` and
the `last_sources` slot retains its prior value — the update is atomic with
respect to errors. -/
theorem c10_sources_update_atomic (store : VectorStoreE) (state : List Source)
    (q : String) (cn : Option String) (ln : Option Int)
    (pre post : List (String × ChunkMeta)) (p : String × ChunkMeta) (e : String)
    (herr : truthyStr (store.search q cn ln).error = false)
    (hemp : (store.search q cn ln).is_empty = false)
    (hsplit : (store.search q cn ln).documents.zip (store.search q cn ln).metadata
        = pre ++ p :: post)
    (hpre : ∀ r ∈ pre, ∃ s, CourseSearchTool.sourceForE store r.2 = Except.ok s)
    (hfail : CourseSearchTool.sourceForE store p.2 = Except.error e) :
    CourseSearchTool.executeE store state q cn ln = Except.error e ∧
    CourseSearchTool.lastSourcesAfterE state
        (CourseSearchTool.executeE store state q cn ln) = state := by
  have hfmt := CourseSearchTool.formatPairsE_error_propagates store pre p post e
    hpre hfail
  have hrun : CourseSearchTool.executeE store state q cn ln = Except.error e := by
    simp [CourseSearchTool.executeE, herr, hemp, hsplit, hfmt]
  exact ⟨hrun, by rw [hrun]; rfl⟩

/-- C10 witness: the theorem applied to a store whose second lesson-link
lookup raises. -/
theorem c10_sources_update_atomic_witness :
    CourseSearchTool.executeE failingLinkStoreE [exampleSourceOld] "q" none none
        = Except.error "connection lost" ∧
    CourseSearchTool.lastSourcesAfterE [exampleSourceOld]
        (CourseSearchTool.executeE failingLinkStoreE [exampleSourceOld] "q"
          none none)
        = [exampleSourceOld] := by
  refine c10_sources_update_atomic failingLinkStoreE [exampleSourceOld] "q"
    none none
    [("first chunk",
      { course_title := some "Course A", lesson_number := some 1 })]
    []
    ("second chunk",
      { course_title := some "Course A", lesson_number := some 2 })
    "connection lost" (by decide) (by decide) (by decide) ?_ rfl
  intro r hr
  rw [List.mem_singleton] at hr
  subst hr
  exact ⟨{ text := "Course A - Lesson 1",
           link := some "http://example.com/lesson-1" }, rfl⟩

end RagChatbot
